import Mathlib

/-!
Shallow embedding of `src/bokeh/sphinxext/bokeh_enum.py`, the Sphinx
directive `bokeh-enum` (class `BokehEnumDirective`), together with proofs
about its `run` method.

Python strings are modelled as `List Char` where character-level reasoning
matters (the repr of the enumeration, the error message) and as Lean
`String` for opaque identifiers (the attribute name, the module name, the
rendered template text).  Everything the directive delegates to the outside
world -- the dynamic module loader (`importlib.import_module`), attribute
lookup on the loaded module (`getattr`), the repr of the looked-up value,
the text wrapper configured on line 41 of the source, the `ENUM_DETAIL`
template renderer and the docutils parser (`nested_parse_with_titles`) --
is a parameter of the model, collected in the `Env` structure.  The
directive body itself (lines 54-87) is translated statement by statement.
-/

namespace BokehEnum

/-- The wrapper configuration of line 41 of the source:
`textwrap.TextWrapper` with subsequent lines indented by four spaces. -/
def subsequent_indent : String := "    "

/-- The keyword arguments handed to `ENUM_DETAIL.render` on lines 73-79 of
the source: the attribute name, the module name, the directive body content
(`self.content`), the short representation, and the optional wrapped full
representation (`None` is modelled as `none`). -/
structure TemplateArgs where
  name : String
  module : String
  content : List String
  shortrepr : List Char
  fullrepr : Option (List (List Char))
deriving DecidableEq, Repr

/-- The exceptions `run` can raise in the model: `keyError k` is the Python
`KeyError` raised by `self.options[k]` when the key is absent (line 58);
`sphinxError msg` is the `SphinxError` raised on line 61. -/
inductive RunError where
  | keyError (key : String)
  | sphinxError (msg : List Char)
deriving DecidableEq, Repr

/-- Whether a `RunError` is the fatal Sphinx build error (as opposed to the
Python `KeyError` escaping from `self.options` subscripting). -/
def RunError.isSphinxError : RunError → Bool
  | .sphinxError _ => true
  | .keyError _ => false

/-- The external world the directive runs against.  `load_module` models
`importlib.import_module` (`none` = `ImportError`); `getattr` models
Python `getattr(module, name, None)` (`none` = attribute absent, i.e. the
Python default `None`); `reprVal` is Python `repr` on module attribute
values; `wrap` is the `wrap` method of the module-level `wrapper` of line
41 (a `textwrap.TextWrapper` with `subsequent_indent` four spaces);
`render` is `ENUM_DETAIL.render`; `nestedParse` models building the
`ViewList`, calling `nested_parse_with_titles` into a fresh paragraph node
and taking the children of that node (lines 81-87). -/
structure Env (M V N : Type) where
  load_module : String → Option M
  getattr : M → String → Option V
  reprVal : V → List Char
  wrap : List Char → List (List Char)
  render : TemplateArgs → String
  nestedParse : List (String × String) → List N

/-- Python `repr` applied to the result of `getattr(module, name, None)`:
the repr of `None` is the four-character string `None`, otherwise the repr
of the value found. -/
def pyRepr {V : Type} (reprVal : V → List Char) : Option V → List Char
  | none => "None".data
  | some v => reprVal v

/-- Lines 66-71 of the source.  Given the full repr, produce the pair
(shortrepr, fullrepr) that will be passed to the template: when the repr is
longer than 180 characters, the short form is the first 40 characters, the
six characters of `" .... "`, and the last 40 characters, and the full form
is the wrapped repr; otherwise the short form is the repr itself and the
full form is `None`.  (Python `s[:40]` is `take 40` and `s[-40:]` is
`drop (length - 40)`, including their behaviour on short strings.) -/
def shortFull (wrap : List Char → List (List Char)) (fullrepr : List Char) :
    List Char × Option (List (List Char)) :=
  if fullrepr.length > 180 then
    (fullrepr.take 40 ++ " .... ".data ++ fullrepr.drop (fullrepr.length - 40),
      some (wrap fullrepr))
  else
    (fullrepr, none)

/-- Python `repr` of a plain string: the string surrounded by single
quotes.  Used by the `%r` conversions in the error message on line 61. -/
def pyStrRepr (s : String) : List Char :=
  Char.ofNat 39 :: (s.data ++ [Char.ofNat 39])

/-- The message of the `SphinxError` raised on line 61:
`"Could not generate reference docs for %r: could not import module %r"`
with `%r` applied to the attribute name and the module name. -/
def importErrorMsg (name modName : String) : List Char :=
  "Could not generate reference docs for ".data ++ pyStrRepr name ++
    ": could not import module ".data ++ pyStrRepr modName

/-- `sub` occurs as a contiguous substring of `hay`. -/
def substringOf (sub hay : List Char) : Prop :=
  ∃ s t, hay = s ++ sub ++ t

/-- Lines 54-79 of `BokehEnumDirective.run`: look up the `module` option
(a missing key raises `KeyError`), import the module (failure raises the
`SphinxError` of line 61), look up the attribute with `getattr` defaulting
to `None`, take its repr, compute the short and full forms, and assemble
the keyword arguments for `ENUM_DETAIL.render`. -/
def runArgs {M V N : Type} (env : Env M V N) (name : String)
    (options : List (String × String)) (content : List String) :
    Except RunError TemplateArgs :=
  match options.lookup "module" with
  | none => .error (.keyError "module")
  | some modName =>
    match env.load_module modName with
    | none => .error (.sphinxError (importErrorMsg name modName))
    | some module =>
      let enum := env.getattr module name
      let fullrepr := pyRepr env.reprVal enum
      let sf := shortFull env.wrap fullrepr
      .ok { name := name, module := modName, content := content,
            shortrepr := sf.1, fullrepr := sf.2 }

/-- `BokehEnumDirective.run` (lines 54-87): compute the template arguments,
render the template, split the rendered text on newlines into a `ViewList`
whose every item carries the source name `<bokeh-prop>`, feed it to the
nested parser and return the resulting child nodes.  An error short-circuits
with no output nodes. -/
def run {M V N : Type} (env : Env M V N) (name : String)
    (options : List (String × String)) (content : List String) :
    Except RunError (List N) :=
  match runArgs env name options content with
  | .error e => .error e
  | .ok args =>
    let rst_text := env.render args
    .ok (env.nestedParse ((rst_text.splitOn "\n").map
      (fun line => (line, "<bokeh-prop>"))))

/-- A concrete environment for witnesses: one importable module named
`bokeh.sphinxext.sample` holding one attribute `baz` whose repr is the
26-character string `<enumeration baz: a, b, c>`. -/
def sampleEnv : Env String String String :=
  { load_module := fun m =>
      if m = "bokeh.sphinxext.sample" then some m else none
    getattr := fun _ attr =>
      if attr = "baz" then some "<enumeration baz: a, b, c>" else none
    reprVal := fun v => v.data
    wrap := fun r => [r]
    render := fun args => args.name ++ "\n:module: " ++ args.module
    nestedParse := fun lines => lines.map (fun p => p.1) }

/-- A concrete environment whose single attribute has a 200-character repr,
for witnesses of the long-repr branch. -/
def longEnv : Env String String String :=
  { load_module := fun _ => some "m"
    getattr := fun _ _ => some "x"
    reprVal := fun _ => List.replicate 200 'a'
    wrap := fun r => [r]
    render := fun args => String.mk args.shortrepr
    nestedParse := fun lines => lines.map (fun p => p.1) }

/-- The template arguments `runArgs` computes at the sample environment for
the attribute `baz`, used by several witnesses. -/
def sampleArgs : TemplateArgs :=
  { name := "baz", module := "bokeh.sphinxext.sample", content := [],
    shortrepr := (shortFull sampleEnv.wrap (pyRepr sampleEnv.reprVal
      (sampleEnv.getattr "bokeh.sphinxext.sample" "baz"))).1,
    fullrepr := (shortFull sampleEnv.wrap (pyRepr sampleEnv.reprVal
      (sampleEnv.getattr "bokeh.sphinxext.sample" "baz"))).2 }

/-- Helper: the short form computed by `shortFull` has exactly 86
characters when the repr is longer than 180 characters, is the repr itself
otherwise, and never exceeds 180 characters. -/
theorem shortFull_fst_spec (wrap : List Char → List (List Char)) (r : List Char) :
    (r.length > 180 → (shortFull wrap r).1.length = 86) ∧
      (r.length ≤ 180 → (shortFull wrap r).1 = r) ∧
      (shortFull wrap r).1.length ≤ 180 := by
  by_cases hlen : r.length > 180
  · have hfst : (shortFull wrap r).1 =
        r.take 40 ++ " .... ".data ++ r.drop (r.length - 40) := by
      unfold shortFull
      rw [if_pos hlen]
    have h6 : (" .... ".data).length = 6 := rfl
    have hl86 : (shortFull wrap r).1.length = 86 := by
      rw [hfst]
      simp only [List.length_append, List.length_take, List.length_drop, h6]
      omega
    exact ⟨fun _ => hl86, fun hle => absurd hlen (Nat.not_lt.mpr hle), by omega⟩
  · have hfst : (shortFull wrap r).1 = r := by
      unfold shortFull
      rw [if_neg hlen]
    exact ⟨fun hgt => absurd hgt hlen, fun _ => hfst,
      by rw [hfst]; exact Nat.le_of_not_lt hlen⟩

/-- Helper: under a present module option and a successful import, the
template arguments computed by `runArgs` are exactly the record built on
lines 73-79 of the source. -/
theorem runArgs_ok {M V N : Type} (env : Env M V N) (name modName : String)
    (module : M) (options : List (String × String)) (content : List String)
    (hopt : options.lookup "module" = some modName)
    (himp : env.load_module modName = some module) :
    runArgs env name options content = .ok
      { name := name, module := modName, content := content,
        shortrepr := (shortFull env.wrap (pyRepr env.reprVal (env.getattr module name))).1,
        fullrepr := (shortFull env.wrap (pyRepr env.reprVal (env.getattr module name))).2 } := by
  simp [runArgs, hopt, himp]

/-- C1: when the repr of the looked-up attribute is strictly longer than
180 characters, `run` passes the template a short form equal to the first
40 characters of the repr, then `" .... "`, then the last 40 characters,
and a full form equal to the repr wrapped by the four-space-subsequent-
indent wrapper. -/
theorem C1_long_repr_abbreviated {M V N : Type} (env : Env M V N)
    (name modName : String) (module : M)
    (options : List (String × String)) (content : List String)
    (hopt : options.lookup "module" = some modName)
    (himp : env.load_module modName = some module)
    (hlen : (pyRepr env.reprVal (env.getattr module name)).length > 180) :
    runArgs env name options content = .ok
      { name := name, module := modName, content := content,
        shortrepr :=
          (pyRepr env.reprVal (env.getattr module name)).take 40 ++ " .... ".data ++
            (pyRepr env.reprVal (env.getattr module name)).drop
              ((pyRepr env.reprVal (env.getattr module name)).length - 40),
        fullrepr := some (env.wrap (pyRepr env.reprVal (env.getattr module name))) } := by
  rw [runArgs_ok env name modName module options content hopt himp]
  unfold shortFull
  rw [if_pos hlen]

/-- Witness for C1 at a concrete environment whose attribute repr has 200
characters. -/
theorem C1_long_repr_abbreviated_witness :
    runArgs longEnv "baz" [("module", "m")] [] = .ok
      { name := "baz", module := "m", content := [],
        shortrepr :=
          (pyRepr longEnv.reprVal (longEnv.getattr "m" "baz")).take 40 ++ " .... ".data ++
            (pyRepr longEnv.reprVal (longEnv.getattr "m" "baz")).drop
              ((pyRepr longEnv.reprVal (longEnv.getattr "m" "baz")).length - 40),
        fullrepr := some (longEnv.wrap (pyRepr longEnv.reprVal (longEnv.getattr "m" "baz"))) } :=
  C1_long_repr_abbreviated longEnv "baz" "m" "m" [("module", "m")] [] rfl rfl
    (by
      have h : pyRepr longEnv.reprVal (longEnv.getattr "m" "baz") =
          List.replicate 200 'a' := rfl
      rw [h, List.length_replicate]
      omega)

/-- C2 counterexample: for the 26-character repr of the sample attribute
(at or below the threshold), the full form handed to the template is
`none`, not the repr used verbatim: the claim that the representation is
used verbatim as the full form fails. -/
theorem C2_counterexample :
    (runArgs sampleEnv "baz" [("module", "bokeh.sphinxext.sample")] []).toOption.map
        TemplateArgs.fullrepr = some none ∧
      some (none : Option (List (List Char))) ≠
        some (some ["<enumeration baz: a, b, c>".data]) :=
  ⟨rfl, fun h => Option.noConfusion (Option.some.inj h)⟩

/-- C2 (amended): when the repr has length at or below 180, `run` uses the
repr verbatim as the short form, and the full form passed to the template
is `None` (no separate full listing). -/
theorem C2_short_repr_verbatim {M V N : Type} (env : Env M V N)
    (name modName : String) (module : M)
    (options : List (String × String)) (content : List String)
    (hopt : options.lookup "module" = some modName)
    (himp : env.load_module modName = some module)
    (hlen : (pyRepr env.reprVal (env.getattr module name)).length ≤ 180) :
    runArgs env name options content = .ok
      { name := name, module := modName, content := content,
        shortrepr := pyRepr env.reprVal (env.getattr module name),
        fullrepr := none } := by
  rw [runArgs_ok env name modName module options content hopt himp]
  unfold shortFull
  rw [if_neg (Nat.not_lt.mpr hlen)]

/-- Witness for the amended C2 at the sample environment. -/
theorem C2_short_repr_verbatim_witness :
    runArgs sampleEnv "baz" [("module", "bokeh.sphinxext.sample")] [] = .ok
      { name := "baz", module := "bokeh.sphinxext.sample", content := [],
        shortrepr := pyRepr sampleEnv.reprVal
          (sampleEnv.getattr "bokeh.sphinxext.sample" "baz"),
        fullrepr := none } :=
  C2_short_repr_verbatim sampleEnv "baz" "bokeh.sphinxext.sample"
    "bokeh.sphinxext.sample" [("module", "bokeh.sphinxext.sample")] [] rfl rfl
    (by decide)

/-- C3: when the import of the named module fails, `run` raises the
`SphinxError` of line 61, whose message contains both the attribute name
and the module name as substrings, and returns no output nodes (the result
is an error, not a node list). -/
theorem C3_import_failure {M V N : Type} (env : Env M V N)
    (name modName : String) (options : List (String × String))
    (content : List String)
    (hopt : options.lookup "module" = some modName)
    (himp : env.load_module modName = none) :
    run env name options content =
        .error (.sphinxError (importErrorMsg name modName)) ∧
      substringOf name.data (importErrorMsg name modName) ∧
      substringOf modName.data (importErrorMsg name modName) := by
  refine ⟨by simp [run, runArgs, hopt, himp], ?_, ?_⟩
  · exact ⟨"Could not generate reference docs for ".data ++ [Char.ofNat 39],
      [Char.ofNat 39] ++ ": could not import module ".data ++ pyStrRepr modName,
      by simp [importErrorMsg, pyStrRepr]⟩
  · exact ⟨"Could not generate reference docs for ".data ++ pyStrRepr name ++
        ": could not import module ".data ++ [Char.ofNat 39],
      [Char.ofNat 39],
      by simp [importErrorMsg, pyStrRepr]⟩

/-- Witness for C3: the sample environment cannot import a module named
`missing`. -/
theorem C3_import_failure_witness :
    run sampleEnv "baz" [("module", "missing")] [] =
        .error (.sphinxError (importErrorMsg "baz" "missing")) ∧
      substringOf "baz".data (importErrorMsg "baz" "missing") ∧
      substringOf "missing".data (importErrorMsg "baz" "missing") :=
  C3_import_failure sampleEnv "baz" "missing" [("module", "missing")] [] rfl rfl

/-- C5: whenever `runArgs` succeeds, the content field handed to the
template is exactly the directive body content, unchanged. -/
theorem C5_content_passed_through {M V N : Type} (env : Env M V N)
    (name : String) (options : List (String × String)) (content : List String)
    (args : TemplateArgs)
    (h : runArgs env name options content = .ok args) :
    args.content = content := by
  unfold runArgs at h
  split at h
  · exact Except.noConfusion h
  · split at h
    · exact Except.noConfusion h
    · rw [← Except.ok.inj h]

/-- Witness for C5 at the sample environment with a one-line body. -/
theorem C5_content_passed_through_witness :
    ({ name := "baz", module := "bokeh.sphinxext.sample", content := ["enum body"],
        shortrepr := "<enumeration baz: a, b, c>".data,
        fullrepr := none } : TemplateArgs).content = ["enum body"] :=
  C5_content_passed_through sampleEnv "baz"
    [("module", "bokeh.sphinxext.sample")] ["enum body"] _ rfl

/-- C6: when the `module` option is absent, `run` fails (with the Python
`KeyError` escaping from `self.options` subscripting on line 58) and
produces no documentation output. -/
theorem C6_module_option_required {M V N : Type} (env : Env M V N)
    (name : String) (options : List (String × String)) (content : List String)
    (hopt : options.lookup "module" = none) :
    run env name options content = .error (.keyError "module") := by
  simp [run, runArgs, hopt]

/-- Witness for C6: an invocation with an empty option list. -/
theorem C6_module_option_required_witness :
    run sampleEnv "baz" [] [] = .error (.keyError "module") :=
  C6_module_option_required sampleEnv "baz" [] [] rfl

/-- C4 counterexample: with the `module` option absent, `run` raises the
Python `KeyError` from `self.options` subscripting, which is not the
fatal Sphinx build error: the claim that the only error `run` can raise
is the SphinxError for a failed import fails. -/
theorem C4_counterexample :
    run sampleEnv "baz" [] [] = .error (.keyError "module") ∧
      (RunError.keyError "module").isSphinxError = false :=
  ⟨rfl, rfl⟩

/-- C4 (amended): exactly two error paths exist: when the `module` option
is absent `run` raises the `KeyError` for that key, and when the option is
present but the import fails it raises the `SphinxError` of line 61; for
every invocation in which the option is present and the import succeeds,
`run` raises no error. -/
theorem C4_error_paths {M V N : Type} (env : Env M V N) (name : String)
    (options : List (String × String)) (content : List String) :
    (∀ e, run env name options content = .error e →
        (options.lookup "module" = none ∧ e = .keyError "module") ∨
        (∃ modName, options.lookup "module" = some modName ∧
          env.load_module modName = none ∧
          e = .sphinxError (importErrorMsg name modName))) ∧
    (∀ modName module, options.lookup "module" = some modName →
        env.load_module modName = some module →
        ∃ out, run env name options content = .ok out) := by
  constructor
  · intro e he
    cases hl : options.lookup "module" with
    | none =>
      have hrun : run env name options content = .error (.keyError "module") := by
        simp [run, runArgs, hl]
      rw [hrun] at he
      exact Or.inl ⟨rfl, (Except.error.inj he).symm⟩
    | some modName =>
      cases hm : env.load_module modName with
      | none =>
        have hrun : run env name options content =
            .error (.sphinxError (importErrorMsg name modName)) := by
          simp [run, runArgs, hl, hm]
        rw [hrun] at he
        exact Or.inr ⟨modName, rfl, hm, (Except.error.inj he).symm⟩
      | some module =>
        have hrun : run env name options content = .ok (env.nestedParse
            (((env.render
                { name := name, module := modName, content := content,
                  shortrepr := (shortFull env.wrap
                    (pyRepr env.reprVal (env.getattr module name))).1,
                  fullrepr := (shortFull env.wrap
                    (pyRepr env.reprVal (env.getattr module name))).2 }).splitOn
              "\n").map (fun line => (line, "<bokeh-prop>")))) := by
          simp [run, runArgs, hl, hm]
        rw [hrun] at he
        exact Except.noConfusion he
  · intro modName module hl hm
    refine ⟨env.nestedParse
      (((env.render
          { name := name, module := modName, content := content,
            shortrepr := (shortFull env.wrap
              (pyRepr env.reprVal (env.getattr module name))).1,
            fullrepr := (shortFull env.wrap
              (pyRepr env.reprVal (env.getattr module name))).2 }).splitOn
        "\n").map (fun line => (line, "<bokeh-prop>"))), ?_⟩
    simp [run, runArgs, hl, hm]

/-- Witness for the amended C4: the first part applied to an invocation
with no options (yielding the KeyError disjunct), the second to an
invocation whose import succeeds. -/
theorem C4_error_paths_witness :
    ((([] : List (String × String)).lookup "module" = none ∧
        RunError.keyError "module" = .keyError "module") ∨
      (∃ modName, ([] : List (String × String)).lookup "module" = some modName ∧
        sampleEnv.load_module modName = none ∧
        RunError.keyError "module" = .sphinxError (importErrorMsg "baz" modName))) ∧
    (∃ out, run sampleEnv "baz" [("module", "bokeh.sphinxext.sample")] [] = .ok out) :=
  ⟨(C4_error_paths sampleEnv "baz" [] []).1 (.keyError "module") rfl,
    (C4_error_paths sampleEnv "baz" [("module", "bokeh.sphinxext.sample")] []).2
      "bokeh.sphinxext.sample" "bokeh.sphinxext.sample" rfl rfl⟩

/-- C7: on success, `run` follows the single linear sequence: resolve the
attribute from the imported module, compute the short and (if necessary)
wrapped long representation, substitute them into the template, and return
exactly the nodes obtained by feeding the rendered text, split into lines,
to the external parser. -/
theorem C7_linear_sequence {M V N : Type} (env : Env M V N)
    (name modName : String) (module : M)
    (options : List (String × String)) (content : List String)
    (hopt : options.lookup "module" = some modName)
    (himp : env.load_module modName = some module) :
    run env name options content = .ok (env.nestedParse
      (((env.render
          { name := name, module := modName, content := content,
            shortrepr := (shortFull env.wrap
              (pyRepr env.reprVal (env.getattr module name))).1,
            fullrepr := (shortFull env.wrap
              (pyRepr env.reprVal (env.getattr module name))).2 }).splitOn
        "\n").map (fun line => (line, "<bokeh-prop>")))) := by
  simp [run, runArgs, hopt, himp]

/-- Witness for C7 at the sample environment. -/
theorem C7_linear_sequence_witness :
    run sampleEnv "baz" [("module", "bokeh.sphinxext.sample")] [] =
      .ok (sampleEnv.nestedParse
        (((sampleEnv.render sampleArgs).splitOn "\n").map
          (fun line => (line, "<bokeh-prop>")))) :=
  C7_linear_sequence sampleEnv "baz" "bokeh.sphinxext.sample"
    "bokeh.sphinxext.sample" [("module", "bokeh.sphinxext.sample")] [] rfl rfl

/-- C8: when the imported module has no attribute of the given name, `run`
raises no error: the lookup defaults to `None`, whose 4-character repr
`None` falls in the verbatim branch and becomes the short form. -/
theorem C8_missing_attribute_defaults_none {M V N : Type} (env : Env M V N)
    (name modName : String) (module : M)
    (options : List (String × String)) (content : List String)
    (hopt : options.lookup "module" = some modName)
    (himp : env.load_module modName = some module)
    (hattr : env.getattr module name = none) :
    runArgs env name options content = .ok
      { name := name, module := modName, content := content,
        shortrepr := "None".data, fullrepr := none } ∧
      ∃ out, run env name options content = .ok out := by
  have hsf : shortFull env.wrap (pyRepr env.reprVal (env.getattr module name)) =
      ("None".data, none) := by
    rw [hattr]
    show shortFull env.wrap "None".data = ("None".data, none)
    unfold shortFull
    rw [if_neg (by decide)]
  constructor
  · rw [runArgs_ok env name modName module options content hopt himp, hsf]
  · refine ⟨env.nestedParse
      (((env.render
          { name := name, module := modName, content := content,
            shortrepr := "None".data, fullrepr := none }).splitOn
        "\n").map (fun line => (line, "<bokeh-prop>"))), ?_⟩
    simp [run, runArgs, hopt, himp, hsf]

/-- Witness for C8: the sample module has no attribute named `qux`. -/
theorem C8_missing_attribute_defaults_none_witness :
    runArgs sampleEnv "qux" [("module", "bokeh.sphinxext.sample")] [] = .ok
        { name := "qux", module := "bokeh.sphinxext.sample", content := [],
          shortrepr := "None".data, fullrepr := none } ∧
      ∃ out, run sampleEnv "qux" [("module", "bokeh.sphinxext.sample")] [] = .ok out :=
  C8_missing_attribute_defaults_none sampleEnv "qux" "bokeh.sphinxext.sample"
    "bokeh.sphinxext.sample" [("module", "bokeh.sphinxext.sample")] [] rfl rfl rfl

/-- C9: the short form passed to the template never exceeds 180
characters: it has exactly 86 characters (40 + 6 + 40) when the repr is
longer than 180 characters, and is the repr itself (of length at most 180)
otherwise. -/
theorem C9_short_form_bounded {M V N : Type} (env : Env M V N)
    (name modName : String) (module : M)
    (options : List (String × String)) (content : List String)
    (hopt : options.lookup "module" = some modName)
    (himp : env.load_module modName = some module)
    (args : TemplateArgs)
    (h : runArgs env name options content = .ok args) :
    args.shortrepr.length ≤ 180 ∧
      ((pyRepr env.reprVal (env.getattr module name)).length > 180 →
        args.shortrepr.length = 86) ∧
      ((pyRepr env.reprVal (env.getattr module name)).length ≤ 180 →
        args.shortrepr = pyRepr env.reprVal (env.getattr module name)) := by
  rw [runArgs_ok env name modName module options content hopt himp] at h
  rw [← Except.ok.inj h]
  obtain ⟨h86, hid, hle⟩ := shortFull_fst_spec env.wrap
    (pyRepr env.reprVal (env.getattr module name))
  exact ⟨hle, h86, hid⟩

/-- Witness for C9 at the sample environment. -/
theorem C9_short_form_bounded_witness :
    sampleArgs.shortrepr.length ≤ 180 ∧
      ((pyRepr sampleEnv.reprVal
          (sampleEnv.getattr "bokeh.sphinxext.sample" "baz")).length > 180 →
        sampleArgs.shortrepr.length = 86) ∧
      ((pyRepr sampleEnv.reprVal
          (sampleEnv.getattr "bokeh.sphinxext.sample" "baz")).length ≤ 180 →
        sampleArgs.shortrepr = pyRepr sampleEnv.reprVal
          (sampleEnv.getattr "bokeh.sphinxext.sample" "baz")) :=
  C9_short_form_bounded sampleEnv "baz" "bokeh.sphinxext.sample"
    "bokeh.sphinxext.sample" [("module", "bokeh.sphinxext.sample")] [] rfl rfl
    sampleArgs
    (runArgs_ok sampleEnv "baz" "bokeh.sphinxext.sample" "bokeh.sphinxext.sample"
      [("module", "bokeh.sphinxext.sample")] [] rfl rfl)

/-- C10: the full-form value passed to the template is `None` whenever the
repr has length at most 180, and a wrapped full listing is present only
when the repr is longer than 180 characters. -/
theorem C10_full_form_only_when_long {M V N : Type} (env : Env M V N)
    (name modName : String) (module : M)
    (options : List (String × String)) (content : List String)
    (hopt : options.lookup "module" = some modName)
    (himp : env.load_module modName = some module)
    (args : TemplateArgs)
    (h : runArgs env name options content = .ok args) :
    ((pyRepr env.reprVal (env.getattr module name)).length ≤ 180 →
        args.fullrepr = none) ∧
      (args.fullrepr ≠ none →
        (pyRepr env.reprVal (env.getattr module name)).length > 180) := by
  rw [runArgs_ok env name modName module options content hopt himp] at h
  rw [← Except.ok.inj h]
  by_cases hlen : (pyRepr env.reprVal (env.getattr module name)).length > 180
  · have hsnd : (shortFull env.wrap
        (pyRepr env.reprVal (env.getattr module name))).2 =
        some (env.wrap (pyRepr env.reprVal (env.getattr module name))) := by
      unfold shortFull
      rw [if_pos hlen]
    exact ⟨fun hle => absurd hlen (Nat.not_lt.mpr hle), fun _ => hlen⟩
  · have hsnd : (shortFull env.wrap
        (pyRepr env.reprVal (env.getattr module name))).2 = none := by
      unfold shortFull
      rw [if_neg hlen]
    exact ⟨fun _ => hsnd, fun hne => absurd hsnd hne⟩

/-- Witness for C10 at the sample environment. -/
theorem C10_full_form_only_when_long_witness :
    ((pyRepr sampleEnv.reprVal
        (sampleEnv.getattr "bokeh.sphinxext.sample" "baz")).length ≤ 180 →
      sampleArgs.fullrepr = none) ∧
      (sampleArgs.fullrepr ≠ none →
        (pyRepr sampleEnv.reprVal
          (sampleEnv.getattr "bokeh.sphinxext.sample" "baz")).length > 180) :=
  C10_full_form_only_when_long sampleEnv "baz" "bokeh.sphinxext.sample"
    "bokeh.sphinxext.sample" [("module", "bokeh.sphinxext.sample")] [] rfl rfl
    sampleArgs
    (runArgs_ok sampleEnv "baz" "bokeh.sphinxext.sample" "bokeh.sphinxext.sample"
      [("module", "bokeh.sphinxext.sample")] [] rfl rfl)

end BokehEnum
